import Mathlib

/-!
Shallow embedding of the filtering + scoring core of the EquityScreener
repository (src/stock-screener): the data model (`src/models/stock.py`),
the filter engine (`src/core/filters.py`), the base scoring engine
(`src/core/scoring.py`) and the AI scoring engine
(`src/analysis/ai_scoring.py`).

Python floats are modelled by `ℚ`; `Optional[float]` by `Option ℚ`;
Python's `round(x, 2)` is modelled by rounding to the nearest multiple of
1/100 (`round2` below).  Sequential mutation of a local `score` variable
is modelled as function composition of per-block step functions, each step
translating one `if`-block of the source in order.
-/

/-- Python `max(0, min(10, score))`, the clamp used at the end of every
sub-score in both engines. -/
def clamp (q : ℚ) : ℚ := max 0 (min 10 q)

/-- Python `round(total, 2)` idealized over `ℚ`: round to the nearest
multiple of 1/100 (the source rounds a binary float; ties differ only on
exact half-cent values). -/
def round2 (q : ℚ) : ℚ := (round (q * 100) : ℚ) / 100

/-- `StockMetrics` from `src/models/stock.py`: every field an
`Optional[float]` defaulting to `None`. -/
structure StockMetrics where
  pe_ratio : Option ℚ := none
  peg_ratio : Option ℚ := none
  pb_ratio : Option ℚ := none
  ps_ratio : Option ℚ := none
  eps_growth_5y : Option ℚ := none
  revenue_growth_5y : Option ℚ := none
  eps_growth_ttm : Option ℚ := none
  roe : Option ℚ := none
  roa : Option ℚ := none
  gross_margin : Option ℚ := none
  operating_margin : Option ℚ := none
  net_margin : Option ℚ := none
  current_ratio : Option ℚ := none
  quick_ratio : Option ℚ := none
  debt_to_equity : Option ℚ := none
  interest_coverage : Option ℚ := none
  deriving Repr, DecidableEq

/-- `Stock` from `src/models/stock.py` (the fields the engines read; the
timestamp and mutable score fields play no role in any engine call). -/
structure Stock where
  symbol : String
  name : String
  exchange : String
  sector : String
  industry : String
  price : ℚ
  market_cap : ℚ
  avg_volume : ℤ
  metrics : StockMetrics := {}
  deriving Repr, DecidableEq

/-! ## Base scoring engine (`src/core/scoring.py`) -/

/-- The PEG block of `ScoringEngine._score_valuation` (scoring.py:69-77). -/
def pegStep (peg : Option ℚ) (score : ℚ) : ℚ :=
  match peg with
  | none => score
  | some p =>
    if p ≤ 0.5 then score + 3
    else if p ≤ 0.75 then score + 2
    else if p ≤ 1 then score + 1
    else if p > 1.5 then score - 2
    else score

/-- The P/E block of `ScoringEngine._score_valuation` (scoring.py:80-86). -/
def peStep (pe : Option ℚ) (score : ℚ) : ℚ :=
  match pe with
  | none => score
  | some p =>
    if 10 ≤ p ∧ p ≤ 20 then score + 2
    else if 5 ≤ p ∧ p ≤ 30 then score + 1
    else if p > 50 then score - 2
    else score

/-- `ScoringEngine._score_valuation` (scoring.py:60-88). -/
def ScoringEngine.score_valuation (m : StockMetrics) : ℚ :=
  clamp (peStep m.pe_ratio (pegStep m.peg_ratio 5))

/-- The EPS-growth block of `ScoringEngine._score_growth`
(scoring.py:99-109).  Note the source multiplies by 100 unconditionally
(`growth = metrics.eps_growth_5y * 100`): there is no magnitude guard. -/
def epsGrowthStep (eps : Option ℚ) (score : ℚ) : ℚ :=
  match eps with
  | none => score
  | some e =>
    let growth := e * 100
    if growth ≥ 20 then score + 3
    else if growth ≥ 15 then score + 2
    else if growth ≥ 10 then score + 1
    else if growth < 5 then score - 1
    else score

/-- The revenue-growth bonus of `ScoringEngine._score_growth`
(scoring.py:112-114). -/
def revenueGrowthStep (rev : Option ℚ) (score : ℚ) : ℚ :=
  match rev with
  | none => score
  | some r => if r > 0.1 then score + 1 else score

/-- `ScoringEngine._score_growth` (scoring.py:90-116). -/
def ScoringEngine.score_growth (m : StockMetrics) : ℚ :=
  clamp (revenueGrowthStep m.revenue_growth_5y (epsGrowthStep m.eps_growth_5y 5))

/-- The ROE block of `ScoringEngine._score_profitability`
(scoring.py:127-137): here the percent normalization IS conditional
(`roe * 100 if roe < 1 else roe`). -/
def roeStep (roe : Option ℚ) (score : ℚ) : ℚ :=
  match roe with
  | none => score
  | some r =>
    let roe_pct := if r < 1 then r * 100 else r
    if roe_pct ≥ 25 then score + 3
    else if roe_pct ≥ 20 then score + 2
    else if roe_pct ≥ 15 then score + 1
    else if roe_pct < 10 then score - 1
    else score

/-- The net-margin bonus of `ScoringEngine._score_profitability`
(scoring.py:140-144). -/
def netMarginStep (nm : Option ℚ) (score : ℚ) : ℚ :=
  match nm with
  | none => score
  | some v =>
    if v > 0.15 then score + 1
    else if v > 0.10 then score + 0.5
    else score

/-- The ROA bonus of `ScoringEngine._score_profitability`
(scoring.py:147-149). -/
def roaStep (roa : Option ℚ) (score : ℚ) : ℚ :=
  match roa with
  | none => score
  | some v => if v > 0.10 then score + 1 else score

/-- `ScoringEngine._score_profitability` (scoring.py:118-151). -/
def ScoringEngine.score_profitability (m : StockMetrics) : ℚ :=
  clamp (roaStep m.roa (netMarginStep m.net_margin (roeStep m.roe 5)))

/-- The current-ratio block of `ScoringEngine._score_financial_health`
(scoring.py:162-170). -/
def currentRatioStep (cr : Option ℚ) (score : ℚ) : ℚ :=
  match cr with
  | none => score
  | some v =>
    if v ≥ 2.5 then score + 2
    else if v ≥ 2 then score + 1.5
    else if v ≥ 1.5 then score + 1
    else if v < 1 then score - 2
    else score

/-- The quick-ratio block of `ScoringEngine._score_financial_health`
(scoring.py:173-179). -/
def quickRatioStep (qr : Option ℚ) (score : ℚ) : ℚ :=
  match qr with
  | none => score
  | some v =>
    if v ≥ 1.5 then score + 1.5
    else if v ≥ 1 then score + 1
    else if v < 0.5 then score - 1
    else score

/-- The debt-to-equity block of `ScoringEngine._score_financial_health`
(scoring.py:182-190). -/
def debtEquityStep (de : Option ℚ) (score : ℚ) : ℚ :=
  match de with
  | none => score
  | some v =>
    if v ≤ 0.2 then score + 2
    else if v ≤ 0.3 then score + 1.5
    else if v ≤ 0.5 then score + 1
    else if v > 1 then score - 2
    else score

/-- `ScoringEngine._score_financial_health` (scoring.py:153-192). -/
def ScoringEngine.score_financial_health (m : StockMetrics) : ℚ :=
  clamp (debtEquityStep m.debt_to_equity
    (quickRatioStep m.quick_ratio (currentRatioStep m.current_ratio 5)))

/-- The per-category breakdown dict built by `ScoringEngine.score`
(scoring.py:38-50): a dict with exactly these four keys. -/
structure Breakdown where
  valuation : ℚ
  growth : ℚ
  profitability : ℚ
  financial_health : ℚ
  deriving Repr, DecidableEq

/-- Python `breakdown.get(cat, 0)` on the four-key breakdown dict. -/
def Breakdown.get (b : Breakdown) (cat : String) : ℚ :=
  match cat with
  | "valuation" => b.valuation
  | "growth" => b.growth
  | "profitability" => b.profitability
  | "financial_health" => b.financial_health
  | _ => 0

/-- The construction config of `ScoringEngine.__init__` (scoring.py:13-26):
a dict that may carry an "enabled" flag and a "weights" dict (modelled as an
association list, the shape a JSON config yields). -/
structure ScoringConfig where
  enabled : Option Bool := none
  weights : Option (List (String × ℚ)) := none

/-- The default weights dict of `ScoringEngine.__init__` (scoring.py:21-26). -/
def defaultWeights : List (String × ℚ) :=
  [("valuation", 0.25), ("growth", 0.25),
   ("profitability", 0.25), ("financial_health", 0.25)]

/-- The state `ScoringEngine.__init__` stores (scoring.py:20-26). -/
structure ScoringEngine where
  enabled : Bool
  weights : List (String × ℚ)

/-- `ScoringEngine.__init__` (scoring.py:13-26): `config.get("enabled", True)`
and `config.get("weights", default)`. -/
def mkScoringEngine (config : ScoringConfig) : ScoringEngine :=
  { enabled := config.enabled.getD true
    weights := config.weights.getD defaultWeights }

/-- `ScoringEngine.score` (scoring.py:28-58): builds the four-category
breakdown, then `total = sum(breakdown.get(cat, 0) * self.weights.get(cat, 0)
for cat in self.weights)` and returns `(round(total, 2), breakdown)`.
Iterating a Python dict visits each key once with its value, so the sum is
the sum over the weight entries. -/
def ScoringEngine.score (e : ScoringEngine) (stock : Stock) : ℚ × Breakdown :=
  let breakdown : Breakdown :=
    { valuation := ScoringEngine.score_valuation stock.metrics
      growth := ScoringEngine.score_growth stock.metrics
      profitability := ScoringEngine.score_profitability stock.metrics
      financial_health := ScoringEngine.score_financial_health stock.metrics }
  let total := (e.weights.map (fun p => breakdown.get p.1 * p.2)).sum
  (round2 total, breakdown)

/-! ## Filter engine (`src/core/filters.py`) -/

/-- A `{min?, max?, required?}` bounds dict from the criteria config
(filters.py:87-104): each key independently absent. -/
structure Bounds where
  min : Option ℚ := none
  max : Option ℚ := none
  required : Option Bool := none
  deriving Repr, DecidableEq

/-- The criteria configuration consumed by `FilterEngine.__init__`
(filters.py:25-85): five category dicts mapping metric name to bounds
(modelled as association lists in insertion order, the shape a JSON config
yields) plus the operability exclusion lists. -/
structure FilterConfig where
  valuation : List (String × Bounds) := []
  growth : List (String × Bounds) := []
  profitability : List (String × Bounds) := []
  liquidity : List (String × Bounds) := []
  solvency : List (String × Bounds) := []
  exclude_sectors : List String := []
  exclude_industries : List String := []

/-- Python `getattr(stock.metrics, metric, None)` (filters.py:107) over the
`StockMetrics` dataclass fields: any name that is not one of the sixteen
metric fields reads as `None`. -/
def lookupMetric (metric : String) (m : StockMetrics) : Option ℚ :=
  match metric with
  | "pe_ratio" => m.pe_ratio
  | "peg_ratio" => m.peg_ratio
  | "pb_ratio" => m.pb_ratio
  | "ps_ratio" => m.ps_ratio
  | "eps_growth_5y" => m.eps_growth_5y
  | "revenue_growth_5y" => m.revenue_growth_5y
  | "eps_growth_ttm" => m.eps_growth_ttm
  | "roe" => m.roe
  | "roa" => m.roa
  | "gross_margin" => m.gross_margin
  | "operating_margin" => m.operating_margin
  | "net_margin" => m.net_margin
  | "current_ratio" => m.current_ratio
  | "quick_ratio" => m.quick_ratio
  | "debt_to_equity" => m.debt_to_equity
  | "interest_coverage" => m.interest_coverage
  | _ => none

/-- The closure returned by `FilterEngine._create_range_filter`
(filters.py:87-121): absent value passes iff not `required`
(`bounds.get("required", False)`); a known value fails on a violated
`min` or `max` bound. -/
def rangeFilter (metric : String) (bounds : Bounds) (stock : Stock) : Bool :=
  let required := bounds.required.getD false
  match lookupMetric metric stock.metrics with
  | none => !required
  | some v =>
    if (match bounds.min with | some mn => decide (v < mn) | none => false) then false
    else if (match bounds.max with | some mx => decide (v > mx) | none => false) then false
    else true

/-- One category loop of `FilterEngine._build_filters` (filters.py:30-67):
an entry is compiled iff `min` or `max` is present, under the name
`<category>.<metric>`. -/
def categoryFilters (catPrefix : String) (entries : List (String × Bounds)) :
    List (String × (Stock → Bool)) :=
  entries.filterMap (fun p =>
    if p.2.min.isSome || p.2.max.isSome then
      some (catPrefix ++ p.1, rangeFilter p.1 p.2)
    else none)

/-- `FilterEngine._build_filters` (filters.py:25-85): the five range
categories in source order, then the operability exclusion rules (compiled
only when the exclusion list is truthy, i.e. nonempty). -/
def buildFilters (config : FilterConfig) : List (String × (Stock → Bool)) :=
  categoryFilters "valuation." config.valuation ++
  categoryFilters "growth." config.growth ++
  categoryFilters "profitability." config.profitability ++
  categoryFilters "liquidity." config.liquidity ++
  categoryFilters "solvency." config.solvency ++
  (if config.exclude_sectors ≠ [] then
    [("operability.sector", fun s => !(config.exclude_sectors.contains s.sector))]
   else []) ++
  (if config.exclude_industries ≠ [] then
    [("operability.industry", fun s => !(config.exclude_industries.contains s.industry))]
   else [])

/-- The state `FilterEngine.__init__` stores (filters.py:15-23). -/
structure FilterEngine where
  filters : List (String × (Stock → Bool))

/-- `FilterEngine.__init__` (filters.py:15-23). -/
def mkFilterEngine (config : FilterConfig) : FilterEngine :=
  { filters := buildFilters config }

/-- `FilterEngine.passes_all` (filters.py:123-137): iterates the compiled
filters and returns `False` at the first failing one (`List.all`
short-circuits exactly like the source loop). -/
def FilterEngine.passes_all (e : FilterEngine) (stock : Stock) : Bool :=
  e.filters.all (fun p => p.2 stock)

/-- `FilterEngine.evaluate` (filters.py:139-152): the dict comprehension
`{name: func(stock) for name, func in self.filters}`, modelled as the
association list in compiled order (compiled rule names are pairwise
distinct, so the dict holds exactly these pairs). -/
def FilterEngine.evaluate (e : FilterEngine) (stock : Stock) :
    List (String × Bool) :=
  e.filters.map (fun p => (p.1, p.2 stock))

/-- `FilterEngine.get_failing_filters` (filters.py:154-168). -/
def FilterEngine.get_failing_filters (e : FilterEngine) (stock : Stock) :
    List String :=
  (e.filters.filter (fun p => !(p.2 stock))).map Prod.fst

/-! ## AI scoring engine (`src/analysis/ai_scoring.py`) -/

/-- `NewsItem` from `src/analysis/analyzer.py`. -/
structure NewsItem where
  title : String
  link : String
  source : String
  date : Option String := none
  deriving Repr, DecidableEq

/-- `EarningsInfo` from `src/analysis/analyzer.py` (the date modelled as a
string; the AI scorer only tests its presence and interpolates it). -/
structure EarningsInfo where
  next_earnings_date : Option String := none
  eps_estimate : Option ℚ := none
  eps_actual : Option ℚ := none
  revenue_estimate : Option ℚ := none
  deriving Repr, DecidableEq

/-- `StockAnalysis` from `src/analysis/analyzer.py` (the fields the AI
scorer reads; `related_assets` and `analyzed_at` are never consulted by
`AIScorer`). -/
structure StockAnalysis where
  symbol : String := ""
  name : String := ""
  sector : String := ""
  industry : String := ""
  peg_finviz : Option ℚ := none
  fwd_pe : Option ℚ := none
  eps_this_year : Option ℚ := none
  eps_next_year : Option ℚ := none
  news : List NewsItem := []
  earnings : Option EarningsInfo := none
  revenue_ttm : Option ℚ := none
  net_income_ttm : Option ℚ := none
  free_cash_flow : Option ℚ := none
  total_debt : Option ℚ := none
  total_cash : Option ℚ := none
  deriving Repr, DecidableEq

/-- `AIScoreBreakdown` from ai_scoring.py:13-34. -/
structure AIScoreBreakdown where
  fundamental_score : ℚ := 0
  valuation_score : ℚ := 0
  growth_score : ℚ := 0
  momentum_score : ℚ := 0
  sentiment_score : ℚ := 0
  quality_score : ℚ := 0
  total_score : ℚ := 0
  sentiment_summary : String := ""
  momentum_trend : String := ""
  valuation_vs_sector : String := ""
  growth_outlook : String := ""
  flags : List String := []
  deriving Repr, DecidableEq

/-- Python truthiness of an `Optional[float]`: `None`, `0` and `0.0` are
falsy, every other float truthy.  Used wherever the source writes
`if x:` rather than `if x is not None:`. -/
def truthy (o : Option ℚ) : Bool :=
  match o with
  | none => false
  | some x => decide (x ≠ 0)

/-- `POSITIVE_KEYWORDS` (ai_scoring.py:38-44). -/
def POSITIVE_KEYWORDS : List String :=
  ["beat", "beats", "exceeds", "surpass", "upgrade", "upgrades", "buy",
   "outperform", "strong", "growth", "record", "profit", "gains", "surge",
   "jumps", "soars", "rally", "bullish", "positive", "success", "boost",
   "innovation", "breakthrough", "expansion", "dividend", "buyback",
   "acquisition", "partnership", "deal", "win", "award", "launch"]

/-- `NEGATIVE_KEYWORDS` (ai_scoring.py:46-52). -/
def NEGATIVE_KEYWORDS : List String :=
  ["miss", "misses", "below", "downgrade", "downgrades", "sell", "cut",
   "underperform", "weak", "decline", "loss", "losses", "drop", "plunge",
   "falls", "crash", "bearish", "negative", "warning", "concern", "risk",
   "lawsuit", "investigation", "recall", "delay", "layoff", "layoffs",
   "debt", "default", "bankruptcy", "fraud", "scandal", "fine", "penalty"]

/-- `NEUTRAL_KEYWORDS` (ai_scoring.py:54-56); present in the vocabulary but
never consulted by the counting loop. -/
def NEUTRAL_KEYWORDS : List String :=
  ["hold", "neutral", "maintain", "steady", "flat", "unchanged", "mixed"]

/-- A regex word character (ASCII fragment of `\w`): the keyword sets are
all-ASCII, so the count of keyword hits agrees with the source on any
ASCII title. -/
def isWordChar (c : Char) : Bool := c.isAlphanum || c = '_'

/-- Python `re.findall(r'\w+', title.lower())` (ai_scoring.py:363-364):
the maximal runs of word characters of the lower-cased title. -/
def findWords (title : String) : List String :=
  (title.toLower.split (fun c => !(isWordChar c))).filter (fun w => w ≠ "")

/-- The keyword counting loop of `AIScorer._score_sentiment`
(ai_scoring.py:358-371), returning (positive_count, negative_count).
The loop also accumulates a `total_words` counter the source never reads
again; it is not modelled. -/
def countSentiment (news : List NewsItem) : ℕ × ℕ :=
  news.foldl (fun acc item =>
    (findWords item.title).foldl (fun acc2 w =>
      if POSITIVE_KEYWORDS.contains w then (acc2.1 + 1, acc2.2)
      else if NEGATIVE_KEYWORDS.contains w then (acc2.1, acc2.2 + 1)
      else acc2) acc) (0, 0)

/-- The summary formatting of `AIScorer._score_sentiment`
(ai_scoring.py:379-389). -/
def sentimentSummary (p n : ℕ) : String :=
  let counts := "(" ++ toString p ++ "+ / " ++ toString n ++ "-)"
  if p > n * 2 then "Very positive " ++ counts
  else if p > n then "Positive " ++ counts
  else if n > p * 2 then "Very negative " ++ counts
  else if n > p then "Negative " ++ counts
  else "Neutral " ++ counts

/-- `AIScorer._score_sentiment` (ai_scoring.py:353-391). -/
def AIScorer.score_sentiment (news : List NewsItem) : ℚ × String :=
  match news with
  | [] => (5, "No news")
  | _ :: _ =>
    let p := (countSentiment news).1
    let n := (countSentiment news).2
    let score : ℚ :=
      if p + n > 0 then 5 + ((p : ℚ) - (n : ℚ)) / ((p : ℚ) + (n : ℚ)) * 3
      else 5
    (clamp score, sentimentSummary p n)

/-- Mean of a list of rationals (`rolling(k).mean().iloc[-1]` over the last
`k` entries once the window is full). -/
def listMean (l : List ℚ) : ℚ := l.sum / (l.length : ℚ)

/-- The last `k` entries of a list. -/
def lastK (k : ℕ) (l : List ℚ) : List ℚ := l.drop (l.length - k)

/-- `hist["Close"].rolling(k).mean().iloc[-1]` when at least `k`
observations exist. -/
def smaLast (k : ℕ) (prices : List ℚ) : ℚ := listMean (lastK k prices)

/-- The SMA block of `AIScorer._score_momentum` (ai_scoring.py:303-319).
When fewer than 20 observations exist, `rolling(20).mean().iloc[-1]` is
NaN and (since `sma_50` then equals it) all four NaN comparisons are
false: the guard `prices.length ≥ 20` models exactly that. -/
def trendStep (prices : List ℚ) (current : ℚ) (st : ℚ × String) : ℚ × String :=
  if prices.length ≥ 20 then
    let sma20 := smaLast 20 prices
    let sma50 := if prices.length ≥ 50 then smaLast 50 prices else sma20
    if current > sma20 ∧ sma20 > sma50 then (st.1 + 2, "bullish")
    else if current > sma20 then (st.1 + 1, "slightly bullish")
    else if current < sma20 ∧ sma20 < sma50 then (st.1 - 2, "bearish")
    else if current < sma20 then (st.1 - 1, "slightly bearish")
    else st
  else st

/-- The trailing-range block of `AIScorer._score_momentum`
(ai_scoring.py:321-331). -/
def rangeStep (prices : List ℚ) (current : ℚ) (score : ℚ) : ℚ :=
  let high := prices.max?.getD current
  let low := prices.min?.getD current
  let range := high - low
  if range > 0 then
    let position := (current - low) / range
    if position < 0.3 then score + 1
    else if position > 0.9 then score - 0.5
    else score
  else score

/-- The RSI block of `AIScorer._score_momentum` (ai_scoring.py:333-346).
`diff()` yields NaN then the pairwise differences; `.where(cond, 0)`
replaces that NaN by 0 (NaN compares false), so the gain/loss series is a
leading 0 followed by the positive/negative parts of the differences.
`losses.rolling(14).mean().iloc[-1]` is NaN (comparing false) until 14
entries exist, i.e. until `prices.length ≥ 14`. -/
def rsiStep (prices : List ℚ) (st : ℚ × String) : ℚ × String :=
  let diffs := List.zipWith (fun b a => b - a) prices.tail prices
  let gains := (0 : ℚ) :: diffs.map (fun d => if d > 0 then d else 0)
  let losses := (0 : ℚ) :: diffs.map (fun d => if d < 0 then -d else 0)
  if prices.length ≥ 14 then
    let lossAvg := listMean (lastK 14 losses)
    if lossAvg > 0 then
      let gainAvg := listMean (lastK 14 gains)
      let rs := gainAvg / lossAvg
      let rsi := 100 - 100 / (1 + rs)
      if rsi < 30 then (st.1 + 1.5, "oversold - potential bounce")
      else if rsi > 70 then (st.1 - 0.5, st.2)
      else st
    else st
  else st

/-- `AIScorer._score_momentum` (ai_scoring.py:288-351), with the price
history fetch made an explicit input: `none` models any failure obtaining
the history (the `except` branch at ai_scoring.py:348-349 logs and falls
through to return the clamped baseline), `some []` models an empty frame
(the early return at ai_scoring.py:297-298), and `some prices` the closing
prices in chronological order. -/
def AIScorer.score_momentum (hist : Option (List ℚ)) : ℚ × String :=
  match hist with
  | none => (clamp 5, "neutral")
  | some prices =>
    match prices.getLast? with
    | none => (5, "neutral")
    | some current =>
      let st1 := trendStep prices current (5, "neutral")
      let st2 := (rangeStep prices current st1.1, st1.2)
      let st3 := rsiStep prices st2
      (clamp st3.1, st3.2)

/-- The ROE block of `AIScorer._score_fundamentals` (ai_scoring.py:143-152). -/
def aiRoeStep (roe : Option ℚ) (score : ℚ) : ℚ :=
  match roe with
  | none => score
  | some r =>
    let roe_pct := if r < 1 then r * 100 else r
    if roe_pct ≥ 25 then score + 2
    else if roe_pct ≥ 20 then score + 1.5
    else if roe_pct ≥ 15 then score + 1
    else if roe_pct < 10 then score - 1
    else score

/-- The net-margin block of `AIScorer._score_fundamentals`
(ai_scoring.py:155-163). -/
def aiNetMarginStep (nm : Option ℚ) (score : ℚ) : ℚ :=
  match nm with
  | none => score
  | some v =>
    if v > 0.20 then score + 1.5
    else if v > 0.15 then score + 1
    else if v > 0.10 then score + 0.5
    else if v < 0.05 then score - 1
    else score

/-- The current-ratio block of `AIScorer._score_fundamentals`
(ai_scoring.py:166-170). -/
def aiCurrentRatioStep (cr : Option ℚ) (score : ℚ) : ℚ :=
  match cr with
  | none => score
  | some v =>
    if v ≥ 2 then score + 1
    else if v < 1 then score - 1.5
    else score

/-- The debt-to-equity block of `AIScorer._score_fundamentals`
(ai_scoring.py:173-177). -/
def aiDebtEquityStep (de : Option ℚ) (score : ℚ) : ℚ :=
  match de with
  | none => score
  | some v =>
    if v ≤ 0.3 then score + 1
    else if v > 1 then score - 1
    else score

/-- `AIScorer._score_fundamentals` (ai_scoring.py:137-179). -/
def AIScorer.score_fundamentals (m : StockMetrics) : ℚ :=
  clamp (aiDebtEquityStep m.debt_to_equity
    (aiCurrentRatioStep m.current_ratio
      (aiNetMarginStep m.net_margin (aiRoeStep m.roe 5))))

/-- The PEG selection of `AIScorer._score_valuation` (ai_scoring.py:193-197):
prefer the truthy Finviz PEG, else the truthy primary PEG, else none
(both guarded by Python truthiness, so a PEG of exactly 0 is skipped). -/
def pegSelect (m : StockMetrics) (analysis : Option StockAnalysis) : Option ℚ :=
  match analysis with
  | some a =>
    if truthy a.peg_finviz then a.peg_finviz
    else if truthy m.peg_ratio then m.peg_ratio
    else none
  | none =>
    if truthy m.peg_ratio then m.peg_ratio
    else none

/-- The PEG tier chain of `AIScorer._score_valuation` (ai_scoring.py:199-213),
translated branch for branch: because `peg > 1.5` is tested before
`peg > 2`, the `peg > 2` arm is unreachable, exactly as in the source. -/
def aiPegStep (peg : Option ℚ) (st : ℚ × String) : ℚ × String :=
  match peg with
  | none => st
  | some p =>
    if p ≤ 0.5 then (st.1 + 3, "very cheap")
    else if p ≤ 0.75 then (st.1 + 2, "cheap")
    else if p ≤ 1 then (st.1 + 1, st.2)
    else if p > 1.5 then (st.1 - 1, "expensive")
    else if p > 2 then (st.1 - 2, "very expensive")
    else st

/-- The P/E-vs-sector block of `AIScorer._score_valuation`
(ai_scoring.py:216-226): guarded by truthiness of both inputs; the
`pe_ratio > 1.5` arm is tested after `pe_ratio > 1.3` and is unreachable,
exactly as in the source. -/
def peVsSectorStep (pe smpe : Option ℚ) (st : ℚ × String) : ℚ × String :=
  match pe, smpe with
  | some p, some s =>
    if p ≠ 0 ∧ s ≠ 0 then
      let pe_ratio := p / s
      if pe_ratio < 0.7 then (st.1 + 2, "cheap vs sector")
      else if pe_ratio < 0.9 then (st.1 + 1, st.2)
      else if pe_ratio > 1.3 then (st.1 - 1, st.2)
      else if pe_ratio > 1.5 then (st.1 - 2, st.2)
      else st
    else st
  | _, _ => st

/-- The forward-P/E block of `AIScorer._score_valuation`
(ai_scoring.py:229-233), guarded by truthiness. -/
def fwdPeStep (analysis : Option StockAnalysis) (score : ℚ) : ℚ :=
  match analysis with
  | none => score
  | some a =>
    match a.fwd_pe with
    | none => score
    | some f =>
      if f ≠ 0 then
        if f < 15 then score + 1
        else if f > 30 then score - 1
        else score
      else score

/-- `AIScorer._score_valuation` (ai_scoring.py:181-238). -/
def AIScorer.score_valuation (m : StockMetrics) (analysis : Option StockAnalysis)
    (sector_median_pe : Option ℚ) : ℚ × String :=
  let st1 := aiPegStep (pegSelect m analysis) (5, "fair")
  let st2 := peVsSectorStep m.pe_ratio sector_median_pe st1
  let sc := fwdPeStep analysis st2.1
  (clamp sc, st2.2)

/-- The historical-EPS-growth block of `AIScorer._score_growth`
(ai_scoring.py:251-262): the percent normalization is conditional here
(`* 100 if m.eps_growth_5y < 1 else m.eps_growth_5y`). -/
def aiEpsGrowthStep (eps : Option ℚ) (st : ℚ × String) : ℚ × String :=
  match eps with
  | none => st
  | some e =>
    let growth := if e < 1 then e * 100 else e
    if growth ≥ 25 then (st.1 + 2, "strong")
    else if growth ≥ 15 then (st.1 + 1.5, st.2)
    else if growth ≥ 10 then (st.1 + 1, st.2)
    else if growth < 5 then (st.1 - 1, "weak")
    else st

/-- The projected-EPS block of `AIScorer._score_growth`
(ai_scoring.py:265-277), truthiness-guarded. -/
def epsEstimatesStep (analysis : Option StockAnalysis) (st : ℚ × String) :
    ℚ × String :=
  match analysis with
  | none => st
  | some a =>
    let st2 :=
      match a.eps_this_year, a.eps_next_year with
      | some ty, some ny =>
        if ty ≠ 0 ∧ ny ≠ 0 then
          if ny > ty then (st.1 + 1.5, "accelerating")
          else if ny < ty * 0.9 then (st.1 - 1, "decelerating")
          else st
        else st
      | _, _ => st
    let sc :=
      match a.eps_this_year with
      | some ty => if ty ≠ 0 ∧ ty > 0.3 then st2.1 + 1 else st2.1
      | none => st2.1
    (sc, st2.2)

/-- The revenue-growth block of `AIScorer._score_growth`
(ai_scoring.py:280-284). -/
def aiRevenueGrowthStep (rev : Option ℚ) (score : ℚ) : ℚ :=
  match rev with
  | none => score
  | some r =>
    if r > 0.15 then score + 1
    else if r < 0 then score - 1
    else score

/-- `AIScorer._score_growth` (ai_scoring.py:240-286). -/
def AIScorer.score_growth (m : StockMetrics) (analysis : Option StockAnalysis) :
    ℚ × String :=
  let st1 := aiEpsGrowthStep m.eps_growth_5y (5, "stable")
  let st2 := epsEstimatesStep analysis st1
  let sc := aiRevenueGrowthStep m.revenue_growth_5y st2.1
  (clamp sc, st2.2)

/-- The ROA block of `AIScorer._score_quality` (ai_scoring.py:403-409). -/
def aiRoaStep (roa : Option ℚ) (score : ℚ) : ℚ :=
  match roa with
  | none => score
  | some v =>
    if v > 0.15 then score + 2
    else if v > 0.10 then score + 1
    else if v < 0.05 then score - 1
    else score

/-- The free-cash-flow block of `AIScorer._score_quality`
(ai_scoring.py:412-417), truthiness-guarded. -/
def fcfStep (analysis : Option StockAnalysis) (score : ℚ) : ℚ :=
  match analysis with
  | none => score
  | some a =>
    match a.free_cash_flow with
    | none => score
    | some f =>
      if f ≠ 0 then
        if f > 0 then
          let sc := score + 1
          match a.net_income_ttm with
          | some ni => if ni ≠ 0 ∧ f > ni then sc + 1 else sc
          | none => sc
        else score
      else score

/-- The cash-vs-debt block of `AIScorer._score_quality`
(ai_scoring.py:420-422), truthiness-guarded. -/
def cashDebtStep (analysis : Option StockAnalysis) (score : ℚ) : ℚ :=
  match analysis with
  | none => score
  | some a =>
    match a.total_cash, a.total_debt with
    | some c, some d =>
      if c ≠ 0 ∧ d ≠ 0 then
        if c > d then score + 1 else score
      else score
    | _, _ => score

/-- The gross-margin block of `AIScorer._score_quality`
(ai_scoring.py:425-429). -/
def grossMarginStep (gm : Option ℚ) (score : ℚ) : ℚ :=
  match gm with
  | none => score
  | some g =>
    if g > 0.40 then score + 1
    else if g < 0.20 then score - 1
    else score

/-- `AIScorer._score_quality` (ai_scoring.py:393-431). -/
def AIScorer.score_quality (m : StockMetrics) (analysis : Option StockAnalysis) : ℚ :=
  clamp (grossMarginStep m.gross_margin
    (cashDebtStep analysis (fcfStep analysis (aiRoaStep m.roa 5))))

/-- `AIScorer.WEIGHTS` (ai_scoring.py:63-70). -/
def AIScorer.WEIGHTS : List (String × ℚ) :=
  [("fundamental", 0.20), ("valuation", 0.25), ("growth", 0.20),
   ("momentum", 0.15), ("sentiment", 0.10), ("quality", 0.10)]

/-- Python `self.WEIGHTS[k]` (every key used by the source is present). -/
def AIScorer.weight (k : String) : ℚ := (AIScorer.WEIGHTS.lookup k).getD 0

/-- Python `f"{x:.2f}"` idealized over `ℚ` (nearest-hundredth rendering;
used only inside one flag string). -/
def format2 (q : ℚ) : String :=
  let scaled : ℤ := round (q * 100)
  let sign := if scaled < 0 then "-" else ""
  let a := scaled.natAbs
  sign ++ toString (a / 100) ++ "." ++
    (if a % 100 < 10 then "0" else "") ++ toString (a % 100)

/-- `AIScorer._generate_flags` (ai_scoring.py:433-476): each flag appended
independently, in source order; the PEG, debt and earnings conditions are
truthiness-guarded. -/
def AIScorer.generate_flags (stock : Stock) (analysis : Option StockAnalysis)
    (b : AIScoreBreakdown) : List String :=
  (if b.valuation_score ≥ 8 then ["OPPORTUNITY: Very undervalued"] else []) ++
  (if b.sentiment_score ≥ 7 ∧ b.momentum_score ≥ 7 then
    ["OPPORTUNITY: Positive momentum + sentiment"] else []) ++
  (if b.growth_outlook = "accelerating" then
    ["OPPORTUNITY: Accelerating growth"] else []) ++
  (if b.momentum_trend = "oversold - potential bounce" then
    ["OPPORTUNITY: Technically oversold"] else []) ++
  (match analysis with
   | some a =>
     match a.peg_finviz with
     | some p =>
       if p ≠ 0 ∧ p < 0.5 then
         ["OPPORTUNITY: Very low PEG (" ++ format2 p ++ ")"]
       else []
     | none => []
   | none => []) ++
  (if b.sentiment_score ≤ 3 then ["RISK: Negative news sentiment"] else []) ++
  (if b.momentum_trend = "bearish" then ["RISK: Bearish technical trend"] else []) ++
  (if b.growth_outlook = "decelerating" then ["RISK: Decelerating growth"] else []) ++
  (match stock.metrics.debt_to_equity with
   | some d => if d ≠ 0 ∧ d > 1 then ["RISK: High debt levels"] else []
   | none => []) ++
  (match analysis with
   | some a =>
     match a.earnings with
     | some e =>
       match e.next_earnings_date with
       | some d => ["EVENT: Earnings on " ++ d]
       | none => []
     | none => []
   | none => [])

/-- The sentiment branch of `AIScorer.score` (ai_scoring.py:109-116):
`if analysis and analysis.news:` — an explicitly supplied empty news list
is falsy and takes the `else` branch. -/
def sentimentSelect (analysis : Option StockAnalysis) : ℚ × String :=
  match analysis with
  | some a =>
    if a.news ≠ [] then AIScorer.score_sentiment a.news
    else (5, "No news available")
  | none => (5, "No news available")

/-- `AIScorer.score` (ai_scoring.py:72-135), with the momentum price
history an explicit input (see `AIScorer.score_momentum`). -/
def AIScorer.score (stock : Stock) (analysis : Option StockAnalysis)
    (sector_median_pe : Option ℚ) (hist : Option (List ℚ)) : AIScoreBreakdown :=
  let fundamental := AIScorer.score_fundamentals stock.metrics
  let valuation := AIScorer.score_valuation stock.metrics analysis sector_median_pe
  let growth := AIScorer.score_growth stock.metrics analysis
  let momentum := AIScorer.score_momentum hist
  let sentiment := sentimentSelect analysis
  let quality := AIScorer.score_quality stock.metrics analysis
  let total := round2
    (fundamental * AIScorer.weight "fundamental"
      + valuation.1 * AIScorer.weight "valuation"
      + growth.1 * AIScorer.weight "growth"
      + momentum.1 * AIScorer.weight "momentum"
      + sentiment.1 * AIScorer.weight "sentiment"
      + quality * AIScorer.weight "quality")
  let b : AIScoreBreakdown :=
    { fundamental_score := fundamental
      valuation_score := valuation.1
      growth_score := growth.1
      momentum_score := momentum.1
      sentiment_score := sentiment.1
      quality_score := quality
      total_score := total
      sentiment_summary := sentiment.2
      momentum_trend := momentum.2
      valuation_vs_sector := valuation.2
      growth_outlook := growth.2
      flags := [] }
  { b with flags := AIScorer.generate_flags stock analysis b }

/-- A concrete instrument used by witnesses and counterexamples; its
metrics record is all-`None`. -/
def sampleStock : Stock :=
  { symbol := "TEST", name := "Test Co", exchange := "NYSE",
    sector := "Technology", industry := "Software",
    price := 100, market_cap := 1000000000, avg_volume := 500000 }

/-- The EPS-growth tier table of the spec, as an adjustment on a value
already in percent units (used to state what the source actually feeds the
table). -/
def epsGrowthTiersPct (growth : ℚ) : ℚ :=
  if growth ≥ 20 then 3
  else if growth ≥ 15 then 2
  else if growth ≥ 10 then 1
  else if growth < 5 then -1
  else 0

/-! ## Supporting lemmas -/

theorem clamp_bounds (q : ℚ) : 0 ≤ clamp q ∧ clamp q ≤ 10 := by
  constructor
  · exact le_max_left 0 _
  · exact max_le (by norm_num) (min_le_left 10 q)

theorem clamp_mono {a b : ℚ} (h : a ≤ b) : clamp a ≤ clamp b := by
  unfold clamp
  exact max_le_max le_rfl (min_le_min le_rfl h)

theorem all_eq_foldr_map (s : Stock) (l : List (String × (Stock → Bool))) :
    l.all (fun p => p.2 s) =
      ((l.map (fun p => (p.1, p.2 s))).map Prod.snd).foldr (· && ·) true := by
  induction l with
  | nil => rfl
  | cons hd tl ih => simp [List.all_cons, ih]

theorem round2_bounds {q : ℚ} (h0 : 0 ≤ q) (h10 : q ≤ 10) :
    0 ≤ round2 q ∧ round2 q ≤ 10 := by
  have h1 : (0 : ℤ) ≤ round (q * 100) := by
    have : round (0 : ℚ) ≤ round (q * 100) := by
      rw [round_eq, round_eq]
      exact Int.floor_mono (by linarith)
    simpa using this
  have h2 : round (q * 100) ≤ 1000 := by
    have : round (q * 100) ≤ round ((1000 : ℤ) : ℚ) := by
      rw [round_eq, round_eq]
      exact Int.floor_mono (by push_cast; linarith)
    simpa [round_intCast] using this
  unfold round2
  constructor
  · positivity
  · rw [div_le_iff₀ (by norm_num : (0:ℚ) < 100)]
    calc ((round (q * 100) : ℤ) : ℚ) ≤ ((1000 : ℤ) : ℚ) := by exact_mod_cast h2
    _ = 10 * 100 := by norm_num

theorem sentiment_fst_bounds (news : List NewsItem) :
    0 ≤ (AIScorer.score_sentiment news).1 ∧ (AIScorer.score_sentiment news).1 ≤ 10 := by
  cases news with
  | nil => exact ⟨by norm_num [AIScorer.score_sentiment], by norm_num [AIScorer.score_sentiment]⟩
  | cons hd tl => exact clamp_bounds _

theorem sentimentSelect_fst_bounds (analysis : Option StockAnalysis) :
    0 ≤ (sentimentSelect analysis).1 ∧ (sentimentSelect analysis).1 ≤ 10 := by
  cases analysis with
  | none => exact ⟨by norm_num [sentimentSelect], by norm_num [sentimentSelect]⟩
  | some a =>
    by_cases h : a.news = []
    · norm_num [sentimentSelect, h]
    · simpa [sentimentSelect, h] using sentiment_fst_bounds a.news

theorem momentum_fst_bounds (hist : Option (List ℚ)) :
    0 ≤ (AIScorer.score_momentum hist).1 ∧ (AIScorer.score_momentum hist).1 ≤ 10 := by
  cases hist with
  | none => exact clamp_bounds 5
  | some prices =>
    cases h : prices.getLast? with
    | none =>
      simp only [AIScorer.score_momentum, h]
      norm_num
    | some current =>
      simp only [AIScorer.score_momentum, h]
      exact clamp_bounds _

/-- C1: every Base Scoring Engine category sub-score and every AI Scoring
Engine component sub-score lies in [0, 10], for every instrument (all-`None`
metrics included) and arbitrary auxiliary inputs. -/
theorem all_sub_scores_in_range :
    (∀ m : StockMetrics,
      (0 ≤ ScoringEngine.score_valuation m ∧ ScoringEngine.score_valuation m ≤ 10) ∧
      (0 ≤ ScoringEngine.score_growth m ∧ ScoringEngine.score_growth m ≤ 10) ∧
      (0 ≤ ScoringEngine.score_profitability m ∧
        ScoringEngine.score_profitability m ≤ 10) ∧
      (0 ≤ ScoringEngine.score_financial_health m ∧
        ScoringEngine.score_financial_health m ≤ 10)) ∧
    (∀ (stock : Stock) (analysis : Option StockAnalysis) (smpe : Option ℚ)
      (hist : Option (List ℚ)),
      (0 ≤ (AIScorer.score stock analysis smpe hist).fundamental_score ∧
        (AIScorer.score stock analysis smpe hist).fundamental_score ≤ 10) ∧
      (0 ≤ (AIScorer.score stock analysis smpe hist).valuation_score ∧
        (AIScorer.score stock analysis smpe hist).valuation_score ≤ 10) ∧
      (0 ≤ (AIScorer.score stock analysis smpe hist).growth_score ∧
        (AIScorer.score stock analysis smpe hist).growth_score ≤ 10) ∧
      (0 ≤ (AIScorer.score stock analysis smpe hist).momentum_score ∧
        (AIScorer.score stock analysis smpe hist).momentum_score ≤ 10) ∧
      (0 ≤ (AIScorer.score stock analysis smpe hist).sentiment_score ∧
        (AIScorer.score stock analysis smpe hist).sentiment_score ≤ 10) ∧
      (0 ≤ (AIScorer.score stock analysis smpe hist).quality_score ∧
        (AIScorer.score stock analysis smpe hist).quality_score ≤ 10)) := by
  constructor
  · intro m
    exact ⟨clamp_bounds _, clamp_bounds _, clamp_bounds _, clamp_bounds _⟩
  · intro stock analysis smpe hist
    exact ⟨clamp_bounds _, clamp_bounds _, clamp_bounds _,
      momentum_fst_bounds hist, sentimentSelect_fst_bounds analysis, clamp_bounds _⟩

/-- C7: the AI total equals the weighted sum of the six sub-scores under
the fixed weights rounded to two decimals, and lies in [0, 10]. -/
theorem ai_total_weighted_sum_in_range (stock : Stock)
    (analysis : Option StockAnalysis) (smpe : Option ℚ) (hist : Option (List ℚ)) :
    (AIScorer.score stock analysis smpe hist).total_score =
      round2 ((AIScorer.score stock analysis smpe hist).fundamental_score * 0.20
        + (AIScorer.score stock analysis smpe hist).valuation_score * 0.25
        + (AIScorer.score stock analysis smpe hist).growth_score * 0.20
        + (AIScorer.score stock analysis smpe hist).momentum_score * 0.15
        + (AIScorer.score stock analysis smpe hist).sentiment_score * 0.10
        + (AIScorer.score stock analysis smpe hist).quality_score * 0.10) ∧
    0 ≤ (AIScorer.score stock analysis smpe hist).total_score ∧
    (AIScorer.score stock analysis smpe hist).total_score ≤ 10 := by
  have hf : 0 ≤ (AIScorer.score stock analysis smpe hist).fundamental_score ∧
      (AIScorer.score stock analysis smpe hist).fundamental_score ≤ 10 := clamp_bounds _
  have hv : 0 ≤ (AIScorer.score stock analysis smpe hist).valuation_score ∧
      (AIScorer.score stock analysis smpe hist).valuation_score ≤ 10 := clamp_bounds _
  have hg : 0 ≤ (AIScorer.score stock analysis smpe hist).growth_score ∧
      (AIScorer.score stock analysis smpe hist).growth_score ≤ 10 := clamp_bounds _
  have hmo : 0 ≤ (AIScorer.score stock analysis smpe hist).momentum_score ∧
      (AIScorer.score stock analysis smpe hist).momentum_score ≤ 10 :=
    momentum_fst_bounds hist
  have hs : 0 ≤ (AIScorer.score stock analysis smpe hist).sentiment_score ∧
      (AIScorer.score stock analysis smpe hist).sentiment_score ≤ 10 :=
    sentimentSelect_fst_bounds analysis
  have hq : 0 ≤ (AIScorer.score stock analysis smpe hist).quality_score ∧
      (AIScorer.score stock analysis smpe hist).quality_score ≤ 10 := clamp_bounds _
  refine ⟨rfl, ?_⟩
  have h0 : 0 ≤ (AIScorer.score stock analysis smpe hist).fundamental_score * 0.20
      + (AIScorer.score stock analysis smpe hist).valuation_score * 0.25
      + (AIScorer.score stock analysis smpe hist).growth_score * 0.20
      + (AIScorer.score stock analysis smpe hist).momentum_score * 0.15
      + (AIScorer.score stock analysis smpe hist).sentiment_score * 0.10
      + (AIScorer.score stock analysis smpe hist).quality_score * 0.10 := by
    obtain ⟨hf1, _⟩ := hf; obtain ⟨hv1, _⟩ := hv; obtain ⟨hg1, _⟩ := hg
    obtain ⟨hmo1, _⟩ := hmo; obtain ⟨hs1, _⟩ := hs; obtain ⟨hq1, _⟩ := hq
    linarith
  have h10 : (AIScorer.score stock analysis smpe hist).fundamental_score * 0.20
      + (AIScorer.score stock analysis smpe hist).valuation_score * 0.25
      + (AIScorer.score stock analysis smpe hist).growth_score * 0.20
      + (AIScorer.score stock analysis smpe hist).momentum_score * 0.15
      + (AIScorer.score stock analysis smpe hist).sentiment_score * 0.10
      + (AIScorer.score stock analysis smpe hist).quality_score * 0.10 ≤ 10 := by
    obtain ⟨_, hf2⟩ := hf; obtain ⟨_, hv2⟩ := hv; obtain ⟨_, hg2⟩ := hg
    obtain ⟨_, hmo2⟩ := hmo; obtain ⟨_, hs2⟩ := hs; obtain ⟨_, hq2⟩ := hq
    linarith
  exact round2_bounds h0 h10

/-- C2: for every criteria configuration and instrument, the short-circuiting
`passes_all` returns exactly the AND-fold of the boolean values of
`evaluate`. -/
theorem passes_all_eq_and_fold_evaluate (config : FilterConfig) (stock : Stock) :
    (mkFilterEngine config).passes_all stock =
      (((mkFilterEngine config).evaluate stock).map Prod.snd).foldr (· && ·) true :=
  all_eq_foldr_map stock (buildFilters config)

/-- C6: a compiled range rule whose referenced metric reads as absent
(including any name with no matching `StockMetrics` field) passes exactly
when the rule is not `required` (default false). -/
theorem absent_metric_rule_passes_iff_not_required (metric : String)
    (bounds : Bounds) (stock : Stock)
    (h : lookupMetric metric stock.metrics = none) :
    rangeFilter metric bounds stock = !(bounds.required.getD false) := by
  unfold rangeFilter
  rw [h]

/-- Witness for C6 at the unknown metric name "magic_metric" on the
all-`None` sample stock, with `required` absent and with `required=true`. -/
theorem absent_metric_rule_witness :
    lookupMetric "magic_metric" sampleStock.metrics = none ∧
    rangeFilter "magic_metric" { min := some 0 } sampleStock = true ∧
    rangeFilter "magic_metric" { min := some 0, required := some true }
      sampleStock = false := by
  refine ⟨rfl, ?_, ?_⟩
  · exact (absent_metric_rule_passes_iff_not_required "magic_metric"
      { min := some 0 } sampleStock rfl).trans rfl
  · exact (absent_metric_rule_passes_iff_not_required "magic_metric"
      { min := some 0, required := some true } sampleStock rfl).trans rfl

/-- Monotonicity of the base P/E block in its running score. -/
theorem peStep_mono (pe : Option ℚ) {a b : ℚ} (h : a ≤ b) :
    peStep pe a ≤ peStep pe b := by
  cases pe with
  | none => simpa [peStep] using h
  | some p =>
    simp only [peStep]
    split_ifs <;> linarith

/-- C9: holding every other metric fixed, the base valuation sub-score at
PEG = 0.4 is at least the one at PEG = 1.2. -/
theorem base_valuation_peg_monotone (m : StockMetrics) :
    ScoringEngine.score_valuation { m with peg_ratio := some 1.2 } ≤
      ScoringEngine.score_valuation { m with peg_ratio := some 0.4 } := by
  unfold ScoringEngine.score_valuation
  dsimp only
  have h1 : pegStep (some 0.4) 5 = 8 := by norm_num [pegStep]
  have h2 : pegStep (some 1.2) 5 = 5 := by norm_num [pegStep]
  rw [h1, h2]
  exact clamp_mono (peStep_mono m.pe_ratio (by norm_num))

/-- C10: `ScoringEngine.score` never consults the stored `enabled` flag:
engines built from configs with equal weights (whatever their "enabled"
entries) score every stock identically. -/
theorem score_independent_of_enabled (c1 c2 : ScoringConfig) (stock : Stock)
    (h : c1.weights = c2.weights) :
    ScoringEngine.score (mkScoringEngine c1) stock =
      ScoringEngine.score (mkScoringEngine c2) stock := by
  simp only [ScoringEngine.score, mkScoringEngine, h]

/-- Witness for C10: enabled=true vs enabled=false vs enabled absent, on
the sample stock. -/
theorem score_independent_of_enabled_witness :
    ScoringEngine.score (mkScoringEngine { enabled := some true }) sampleStock =
      ScoringEngine.score (mkScoringEngine { enabled := some false }) sampleStock ∧
    ScoringEngine.score (mkScoringEngine { enabled := some false }) sampleStock =
      ScoringEngine.score (mkScoringEngine {}) sampleStock :=
  ⟨score_independent_of_enabled _ _ _ rfl, score_independent_of_enabled _ _ _ rfl⟩

/-- C8: with no Analysis Record and no price history (fetch failure or an
empty frame), the momentum sub-score is the baseline 5.0 with trend
"neutral" and the sentiment sub-score is 5.0 with summary
"No news available"; `AIScorer.score` is total, so no error reaches the
caller. -/
theorem no_data_momentum_sentiment_baseline (stock : Stock) (smpe : Option ℚ)
    (hist : Option (List ℚ)) (h : hist = none ∨ hist = some []) :
    (AIScorer.score stock none smpe hist).momentum_score = 5 ∧
    (AIScorer.score stock none smpe hist).momentum_trend = "neutral" ∧
    (AIScorer.score stock none smpe hist).sentiment_score = 5 ∧
    (AIScorer.score stock none smpe hist).sentiment_summary = "No news available" := by
  rcases h with h | h <;> subst h
  · refine ⟨?_, rfl, rfl, rfl⟩
    show (AIScorer.score_momentum none).1 = 5
    norm_num [AIScorer.score_momentum, clamp]
  · exact ⟨rfl, rfl, rfl, rfl⟩

/-- Witness for C8 at a failed price-history fetch on the sample stock. -/
theorem no_data_momentum_sentiment_baseline_witness :
    (AIScorer.score sampleStock none none none).momentum_score = 5 ∧
    (AIScorer.score sampleStock none none none).momentum_trend = "neutral" ∧
    (AIScorer.score sampleStock none none none).sentiment_score = 5 ∧
    (AIScorer.score sampleStock none none none).sentiment_summary =
      "No news available" :=
  no_data_momentum_sentiment_baseline sampleStock none none (Or.inl rfl)

/-- C3 counterexample: for an instrument with `eps_growth_5y = 3` (three
percent, already percent units) and every other field absent, the base
growth sub-score is 8 (the source multiplies by 100 unconditionally, so 3
becomes 300 and earns the ≥20 bonus), not the 4 the <5 penalty would
give. -/
theorem base_growth_percent_claim_false :
    ScoringEngine.score_growth { eps_growth_5y := some 3 } = 8 ∧
    ScoringEngine.score_growth { eps_growth_5y := some 3 } ≠ 4 := by
  constructor <;>
    norm_num [ScoringEngine.score_growth, epsGrowthStep, revenueGrowthStep, clamp]

/-- C3 amended: the base growth sub-score applies the tier table to
`eps_growth_5y * 100` unconditionally — every present value is treated as
a fraction, with no magnitude guard. -/
theorem base_growth_unconditional_percent (m : StockMetrics) (g : ℚ)
    (h : m.eps_growth_5y = some g) :
    ScoringEngine.score_growth m =
      clamp (revenueGrowthStep m.revenue_growth_5y (5 + epsGrowthTiersPct (g * 100))) := by
  have he : epsGrowthStep m.eps_growth_5y 5 = 5 + epsGrowthTiersPct (g * 100) := by
    rw [h]
    simp only [epsGrowthStep, epsGrowthTiersPct]
    split_ifs <;> ring
  unfold ScoringEngine.score_growth
  rw [he]

/-- Witness for the amended C3 at `eps_growth_5y = 3`. -/
theorem base_growth_unconditional_percent_witness :
    StockMetrics.eps_growth_5y { eps_growth_5y := some 3 } = some 3 ∧
    ScoringEngine.score_growth { eps_growth_5y := some 3 } =
      clamp (revenueGrowthStep none (5 + epsGrowthTiersPct (3 * 100))) :=
  ⟨rfl, base_growth_unconditional_percent { eps_growth_5y := some 3 } 3 rfl⟩

/-- C4 counterexample: calling `AIScorer.score` with an Analysis Record
whose news list is explicitly supplied and empty yields the summary
"No news available", not the "No news" the claim asserts (the empty list
is falsy in `if analysis and analysis.news:`, so `_score_sentiment` — whose
empty-list branch would say "No news" — is never reached). -/
theorem ai_empty_news_gives_no_news_claim_false :
    (AIScorer.score sampleStock (some { news := [] }) none none).sentiment_summary
      = "No news available" ∧
    (AIScorer.score sampleStock (some { news := [] }) none none).sentiment_summary
      ≠ "No news" := by
  exact ⟨rfl, by decide⟩

/-- C4 amended: through `AIScorer.score`, an explicitly supplied empty news
list is treated exactly like a missing Analysis Record: sentiment sub-score
5.0 and summary "No news available" in both cases ("No news" can only arise
from a direct `_score_sentiment` call, which `score` never makes with an
empty list). -/
theorem ai_empty_news_no_news_available (stock : Stock) (smpe : Option ℚ)
    (hist : Option (List ℚ)) (a : StockAnalysis) (h : a.news = []) :
    ((AIScorer.score stock (some a) smpe hist).sentiment_score = 5 ∧
      (AIScorer.score stock (some a) smpe hist).sentiment_summary
        = "No news available") ∧
    ((AIScorer.score stock none smpe hist).sentiment_score = 5 ∧
      (AIScorer.score stock none smpe hist).sentiment_summary
        = "No news available") := by
  refine ⟨⟨?_, ?_⟩, rfl, rfl⟩
  · show (sentimentSelect (some a)).1 = 5
    simp [sentimentSelect, h]
  · show (sentimentSelect (some a)).2 = "No news available"
    simp [sentimentSelect, h]

/-- Witness for the amended C4 at an explicitly empty news list. -/
theorem ai_empty_news_no_news_available_witness :
    (AIScorer.score sampleStock (some { news := [] }) none none).sentiment_score
      = 5 ∧
    (AIScorer.score sampleStock (some { news := [] }) none none).sentiment_summary
      = "No news available" :=
  ⟨(ai_empty_news_no_news_available sampleStock none none { news := [] } rfl).1.1,
   (ai_empty_news_no_news_available sampleStock none none { news := [] } rfl).1.2⟩

/-- C5: the deep tiers of the AI valuation sub-score are dead code.  With
chosen PEG = 3 (> 2) the sub-score is 4 with label "expensive" — the
`peg > 1.5` arm (−1) fires because it is tested before `peg > 2`, so the
−2 / "very expensive" arm never can.  Likewise with P/E = 20 against a
sector median of 10 (ratio 2 > 1.5) the sub-score is 4 — the
`pe_ratio > 1.3` arm (−1) fires, so the `pe_ratio > 1.5` arm (−2) never
can. -/
theorem ai_valuation_deep_tiers_unreachable :
    AIScorer.score_valuation { peg_ratio := some 3 } none none
      = (4, "expensive") ∧
    AIScorer.score_valuation { pe_ratio := some 20 } none (some 10)
      = (4, "fair") := by
  constructor <;>
    norm_num [AIScorer.score_valuation, aiPegStep, pegSelect, truthy,
      peVsSectorStep, fwdPeStep, clamp, Prod.ext_iff]
